import Mathlib

/-!
# Verification of the anemia-detection color-analysis pipeline

Shallow embedding of the heuristic pixel-analysis pipeline of
`src/components/pages/AnalysisPage.tsx`: pixel sampling, HSV-based skin
classification (`isSkinPixel`), pallor index (`calculatePallorIndex`),
hemoglobin estimate (`estimateHemoglobin`), risk-tier classification
(`assessAnemiaRisk`), fallback record (`getDefaultResult`), the driver
(`analyzeAnemiaFromImage`) and the heatmap renderer (`generateGradCAM`).

JavaScript numbers are modelled as exact rationals (ℚ); every arithmetic
operation used by the pipeline (+, -, *, /, max, min, abs, %, Math.round,
Math.floor) is rational-exact, so ℚ is the real-number semantics of the code.
Pixel channel bytes are naturals (the `Uint8ClampedArray` entries).
-/

namespace Anemia

/-- JavaScript truncation toward zero, `Math.trunc` / the integer part used by
the `%` remainder operator. -/
def jsTrunc (q : ℚ) : ℤ := if 0 ≤ q then ⌊q⌋ else ⌈q⌉

/-- The JavaScript `%` remainder: `x - m * trunc(x / m)` (sign follows `x`). -/
def jsRem (x m : ℚ) : ℚ := x - m * jsTrunc (x / m)

/-- JavaScript `Math.round`: nearest integer, ties toward +∞. -/
def jsRound (x : ℚ) : ℤ := ⌊x + 1/2⌋

/-- JavaScript `Number.prototype.toFixed` on an exact rational: renders `x`
with `f` fractional digits, rounding to nearest with ties toward the larger
value. -/
def toFixedQ (f : ℕ) (x : ℚ) : String :=
  let n : ℤ := ⌊x * (10 : ℚ) ^ f + 1/2⌋
  let m : ℕ := n.natAbs
  let ip : ℕ := m / 10 ^ f
  let fp : ℕ := m % 10 ^ f
  let fpStr : String := toString fp
  let padded : String := String.mk (List.replicate (f - fpStr.length) '0') ++ fpStr
  (if n < 0 then "-" else "") ++ toString ip ++ (if f = 0 then "" else "." ++ padded)

/-! ## HSV conversion, as inlined in `isSkinPixel` -/

/-- The `max` of the three channels (`Math.max(r, g, b)`). -/
def chanMax (r g b : ℚ) : ℚ := max r (max g b)

/-- The `min` of the three channels (`Math.min(r, g, b)`). -/
def chanMin (r g b : ℚ) : ℚ := min r (min g b)

/-- Hue in degrees, exactly as computed in `isSkinPixel`: the sector formula
followed by `h = (h * 60 + 360) % 360`.  The first branch applies the
JavaScript `% 6` to the raw sector value. -/
def hsvHue (r g b : ℚ) : ℚ :=
  let maxc := chanMax r g b
  let minc := chanMin r g b
  let delta := maxc - minc
  let h : ℚ :=
    if delta ≠ 0 then
      if maxc = r then jsRem ((g - b) / delta) 6
      else if maxc = g then (b - r) / delta + 2
      else (r - g) / delta + 4
    else 0
  jsRem (h * 60 + 360) 360

/-- Saturation, exactly as computed in `isSkinPixel`: `max == 0 ? 0 : delta / max`. -/
def hsvSat (r g b : ℚ) : ℚ :=
  let maxc := chanMax r g b
  if maxc = 0 then 0 else (maxc - chanMin r g b) / maxc

/-- Value, exactly as computed in `isSkinPixel`: `max / 255`. -/
def hsvVal (r g b : ℚ) : ℚ := chanMax r g b / 255

/-! ## Skin-pixel classification -/

/-- `skinHueRange1 || skinHueRange2`: hue in [0,25] (red-orange) or [340,360] (red). -/
def skinHueRange (r g b : ℚ) : Prop :=
  (0 ≤ hsvHue r g b ∧ hsvHue r g b ≤ 25) ∨ (340 ≤ hsvHue r g b ∧ hsvHue r g b ≤ 360)

/-- `skinSatRange`: saturation in [0.15, 0.68]. -/
def skinSatRange (r g b : ℚ) : Prop := 0.15 ≤ hsvSat r g b ∧ hsvSat r g b ≤ 0.68

/-- `skinValRange`: value in [0.35, 0.95]. -/
def skinValRange (r g b : ℚ) : Prop := 0.35 ≤ hsvVal r g b ∧ hsvVal r g b ≤ 0.95

/-- `rgbSkinCheck`: R > 95, G > 40, B > 20, max−min channel > 15, |R−G| > 15,
R > G and R > B. -/
def rgbSkinCheck (r g b : ℚ) : Prop :=
  r > 95 ∧ g > 40 ∧ b > 20 ∧
  chanMax r g b - chanMin r g b > 15 ∧
  |r - g| > 15 ∧ r > g ∧ r > b

instance (r g b : ℚ) : Decidable (skinHueRange r g b) := by
  unfold skinHueRange; infer_instance

instance (r g b : ℚ) : Decidable (skinSatRange r g b) := by
  unfold skinSatRange; infer_instance

instance (r g b : ℚ) : Decidable (skinValRange r g b) := by
  unfold skinValRange; infer_instance

instance (r g b : ℚ) : Decidable (rgbSkinCheck r g b) := by
  unfold rgbSkinCheck; infer_instance

/-- `isSkinPixel(r, g, b)`: skin-likelihood score via combined HSV ranges and
RGB heuristic. -/
def isSkinPixel (r g b : ℚ) : ℚ :=
  if skinHueRange r g b ∧ skinSatRange r g b ∧ skinValRange r g b ∧ rgbSkinCheck r g b then
    0.9
  else if rgbSkinCheck r g b then 0.7
  else if skinHueRange r g b ∧ skinSatRange r g b then 0.5
  else 0.0

/-! ## Color metrics -/

/-- `calculatePallorIndex(r, g, b, brightness)`; the `b` argument is accepted
but unused, as in the source. -/
def calculatePallorIndex (r g b brightness : ℚ) : ℚ :=
  let redDeficiency := max 0 ((200 - r) / 200)
  let overallPaleness := max 0 ((220 - brightness) / 220)
  let colorBalance := |r - g| / 255
  redDeficiency * 0.5 + overallPaleness * 0.3 + (1 - colorBalance) * 0.2

/-- `estimateHemoglobin(r, g, b, pallorIndex)`; `g` and `b` are accepted but
unused, as in the source. -/
def estimateHemoglobin (r g b pallorIndex : ℚ) : ℚ :=
  let baseHemoglobin : ℚ := 14.0
  let redContribution := (r / 255) * 4.0
  let pallorReduction := pallorIndex * 6.0
  let estimated := baseHemoglobin + redContribution - pallorReduction
  max 4.0 (min 18.0 estimated)

/-! ## Risk-tier classification -/

/-- The four ordered risk tiers of the classifier
(`'Normal' | 'Mild Risk' | 'High Risk' | 'Severe Risk'`). -/
inductive RiskTier where
  | normal
  | mildRisk
  | highRisk
  | severeRisk
deriving DecidableEq, Repr

/-- Severity position of a tier in the ordering Normal < Mild < High < Severe. -/
def severity : RiskTier → ℕ
  | .normal => 0
  | .mildRisk => 1
  | .highRisk => 2
  | .severeRisk => 3

/-- The local variables of `assessAnemiaRisk` just before its `return`
statement: `riskScore` and `confidence` still carry full precision (the
rounding happens in the returned object literal, see `assessAnemiaRisk`). -/
structure RiskAssessmentRaw where
  result : RiskTier
  riskScore : ℚ
  confidence : ℚ
  explanation : String
  recommendations : List String
  detailedFindings : List String
  focusAreas : List ℚ
deriving DecidableEq

/-- `assessAnemiaRisk(pallorIndex, hemoglobinEstimate, r, g, b)` up to (but
excluding) its `return`: the cascading tier selection and the per-tier
score/confidence/prose assignments.  `rand` stands for the value drawn from
`Math.random()` in the branch that executes. -/
def assessAnemiaRiskRaw (pallorIndex hemoglobinEstimate r g b : ℚ) (rand : ℚ) :
    RiskAssessmentRaw :=
  if pallorIndex < 0.2 ∧ hemoglobinEstimate ≥ 12.0 then
    { result := .normal
      riskScore := pallorIndex * 50
      confidence := 92 + rand * 6
      explanation := "Color analysis indicates healthy skin coloration with good red blood cell oxygenation. Red channel intensity (" ++ toString (jsRound r) ++ ") and overall color balance suggest normal hemoglobin levels around " ++ toFixedQ 1 hemoglobinEstimate ++ " g/dL."
      recommendations :=
        [ "Continue maintaining a balanced diet rich in iron, vitamin B12, and folate"
        , "Regular physical activity to support healthy circulation"
        , "Monitor for any changes in energy levels, skin color, or symptoms"
        , "Consider routine blood work in 6-12 months for preventive screening" ]
      detailedFindings :=
        [ "Normal red channel intensity: " ++ toString (jsRound r) ++ "/255"
        , "Healthy pallor index: " ++ toFixedQ 2 pallorIndex ++ " (normal < 0.3)"
        , "Estimated hemoglobin: " ++ toFixedQ 1 hemoglobinEstimate ++ " g/dL (normal range)" ]
      focusAreas := [] }
  else if pallorIndex < 0.4 ∧ hemoglobinEstimate ≥ 10.0 then
    { result := .mildRisk
      riskScore := 25 + pallorIndex * 40
      confidence := 87 + rand * 8
      explanation := "Mild pallor detected with slightly reduced red coloration. This may indicate early-stage iron deficiency or mild anemia. The estimated hemoglobin level of " ++ toFixedQ 1 hemoglobinEstimate ++ " g/dL suggests monitoring is recommended."
      recommendations :=
        [ "Increase iron-rich foods (lean meats, spinach, lentils, fortified cereals)"
        , "Consider vitamin C with iron-rich meals to enhance absorption"
        , "Monitor symptoms like fatigue, weakness, or shortness of breath"
        , "Schedule blood work (CBC with iron studies) within 2-4 weeks"
        , "Consult healthcare provider if symptoms worsen" ]
      detailedFindings :=
        [ "Reduced red intensity: " ++ toString (jsRound r) ++ "/255 (below optimal)"
        , "Mild pallor index: " ++ toFixedQ 2 pallorIndex ++ " (elevated but manageable)"
        , "Estimated hemoglobin: " ++ toFixedQ 1 hemoglobinEstimate ++ " g/dL (borderline low)" ]
      focusAreas := [30, 40, 50, 60] }
  else if pallorIndex < 0.6 ∧ hemoglobinEstimate ≥ 8.0 then
    { result := .highRisk
      riskScore := 55 + pallorIndex * 30
      confidence := 89 + rand * 6
      explanation := "Significant pallor detected indicating probable anemia. Color analysis shows markedly reduced red coloration and overall paleness consistent with moderate anemia. Estimated hemoglobin of " ++ toFixedQ 1 hemoglobinEstimate ++ " g/dL requires medical attention."
      recommendations :=
        [ "Seek immediate medical evaluation for comprehensive blood work"
        , "Iron supplementation may be necessary (under medical supervision)"
        , "Investigate underlying causes (dietary, gastrointestinal, gynecological)"
        , "Monitor symptoms closely (fatigue, dizziness, rapid heartbeat)"
        , "Consider iron-rich diet modifications while awaiting medical care" ]
      detailedFindings :=
        [ "Significantly reduced red intensity: " ++ toString (jsRound r) ++ "/255"
        , "High pallor index: " ++ toFixedQ 2 pallorIndex ++ " (concerning level)"
        , "Low estimated hemoglobin: " ++ toFixedQ 1 hemoglobinEstimate ++ " g/dL (likely anemic)"
        , "Color pattern consistent with iron deficiency anemia" ]
      focusAreas := [20, 30, 40, 50, 60, 70] }
  else
    { result := .severeRisk
      riskScore := 75 + pallorIndex * 25
      confidence := 94 + rand * 4
      explanation := "Severe pallor detected indicating significant anemia requiring immediate medical attention. The marked absence of red coloration and overall pale appearance suggests severely reduced hemoglobin levels around " ++ toFixedQ 1 hemoglobinEstimate ++ " g/dL."
      recommendations :=
        [ "URGENT: Seek immediate medical attention or emergency care"
        , "Comprehensive blood work and medical evaluation required"
        , "May require iron infusion or other aggressive treatment"
        , "Investigate serious underlying causes (bleeding, malabsorption, chronic disease)"
        , "Monitor for severe symptoms (chest pain, severe fatigue, fainting)" ]
      detailedFindings :=
        [ "Severely reduced red intensity: " ++ toString (jsRound r) ++ "/255 (critical)"
        , "Very high pallor index: " ++ toFixedQ 2 pallorIndex ++ " (severe)"
        , "Very low estimated hemoglobin: " ++ toFixedQ 1 hemoglobinEstimate ++ " g/dL (severely anemic)"
        , "Color pattern indicates severe iron deficiency or other serious anemia" ]
      focusAreas := [10, 20, 30, 40, 50, 60, 70, 80] }

/-- The object actually returned by `assessAnemiaRisk`: `riskScore` rounded to
an integer (`Math.round(riskScore)`) and `confidence` rounded to one decimal
(`Math.round(confidence * 10) / 10`). -/
structure RiskAssessment where
  result : RiskTier
  riskScore : ℤ
  confidence : ℚ
  explanation : String
  recommendations : List String
  detailedFindings : List String
  focusAreas : List ℚ
deriving DecidableEq

/-- `assessAnemiaRisk`, return value included. -/
def assessAnemiaRisk (pallorIndex hemoglobinEstimate r g b : ℚ) (rand : ℚ) :
    RiskAssessment :=
  let a := assessAnemiaRiskRaw pallorIndex hemoglobinEstimate r g b rand
  { result := a.result
    riskScore := jsRound a.riskScore
    confidence := (jsRound (a.confidence * 10) : ℚ) / 10
    explanation := a.explanation
    recommendations := a.recommendations
    detailedFindings := a.detailedFindings
    focusAreas := a.focusAreas }

/-! ## Pixel sampling -/

/-- One RGBA pixel of the decoded raster (`Uint8ClampedArray` entries). -/
structure Pixel where
  r : ℕ
  g : ℕ
  b : ℕ
  a : ℕ
deriving DecidableEq, Repr

/-- The sampling stride of the loop `for (let i = 0; i < pixels.length; i += 16)`
over the flat RGBA buffer: every 4th pixel, starting with pixel 0. -/
def sampleEvery4 : List Pixel → List Pixel
  | p₀ :: _ :: _ :: _ :: rest => p₀ :: sampleEvery4 rest
  | p₀ :: _ => [p₀]
  | [] => []

/-- The skin accumulator: `totalR/totalG/totalB/totalBrightness` running sums
plus `skinPixelCount`. -/
structure SkinAcc where
  totalR : ℚ
  totalG : ℚ
  totalB : ℚ
  totalBrightness : ℚ
  skinPixelCount : ℕ
deriving DecidableEq, Repr

/-- One iteration of the sampling loop body: skip pixels with `alpha < 128`,
accumulate those whose skin likelihood exceeds 0.6. -/
def sampleStep (acc : SkinAcc) (p : Pixel) : SkinAcc :=
  if p.a < 128 then acc
  else if isSkinPixel p.r p.g p.b > 0.6 then
    { totalR := acc.totalR + p.r
      totalG := acc.totalG + p.g
      totalB := acc.totalB + p.b
      totalBrightness := acc.totalBrightness + ((p.r : ℚ) + p.g + p.b) / 3
      skinPixelCount := acc.skinPixelCount + 1 }
  else acc

/-- The whole sampling pass of `analyzeAnemiaFromImage`. -/
def runSampling (pixels : List Pixel) : SkinAcc :=
  (sampleEvery4 pixels).foldl sampleStep ⟨0, 0, 0, 0, 0⟩

/-- The accumulator state after `c` accumulated mid-tone pixels. -/
def midAcc (c : ℕ) : SkinAcc := ⟨220 * c, 170 * c, 140 * c, (530 / 3) * c, c⟩

/-! ## Heatmap renderer -/

/-- The dimensions of a canvas, as used by `generateGradCAM`. -/
structure Canvas where
  width : ℚ
  height : ℚ
deriving DecidableEq

/-- One `fillRect` of the heatmap overlay: the cell rectangle together with
the base alpha `intensity / 100` of its radial gradient (the gradient stops
use `alpha`, `alpha * 0.7`, `alpha * 0.3`). -/
structure HeatRect where
  x : ℚ
  y : ℚ
  w : ℚ
  h : ℚ
  alpha : ℚ
deriving DecidableEq

/-- The overlay canvas produced by `generateGradCAM`: same dimensions as the
source canvas, base image at 60% opacity, heat rectangles at 40% opacity. -/
structure GradCamCanvas where
  width : ℚ
  height : ℚ
  baseOpacity : ℚ
  overlayOpacity : ℚ
  rects : List HeatRect
deriving DecidableEq

/-- `generateGradCAM(canvas, focusAreas)`.  `ctxAvailable` models whether
`gradCanvas.getContext('2d')` returns a context; when it does not, the source
returns the empty string instead of a rendered raster (modelled as `none`).
Each focus area `i` is placed in grid cell `(i % 3, ⌊i / 3⌋)` of a 3×3
partition (indices past 8 fall below the canvas, as in the source). -/
def generateGradCAM (ctxAvailable : Bool) (canvas : Canvas) (focusAreas : List ℚ) :
    Option GradCamCanvas :=
  if ¬ctxAvailable then none
  else some
    { width := canvas.width
      height := canvas.height
      baseOpacity := 0.6
      overlayOpacity := 0.4
      rects := focusAreas.enum.map fun ie =>
        { x := (↑(ie.1 % 3) : ℚ) * (canvas.width / 3)
          y := (↑(ie.1 / 3) : ℚ) * (canvas.height / 3)
          w := canvas.width / 3
          h := canvas.height / 3
          alpha := ie.2 / 100 } }

/-! ## The analysis driver -/

/-- The rounded `colorAnalysis` sub-record of an analysis result. -/
structure ColorAnalysis where
  redChannel : ℤ
  greenChannel : ℤ
  blueChannel : ℤ
  avgBrightness : ℤ
  pallorIndex : ℚ
  hemoglobinEstimate : ℚ
deriving DecidableEq

/-- The `AnalysisResult` record handed back to the UI.  The `gradCamUrl`
(encoded raster string) and `timestamp` (`new Date()`) fields are not
modelled: one is an opaque canvas encoding, the other wall-clock time. -/
structure AnalysisResult where
  confidence : ℚ
  riskScore : ℤ
  result : RiskTier
  explanation : String
  recommendations : List String
  colorAnalysis : ColorAnalysis
  detailedFindings : List String
deriving DecidableEq

/-- `getDefaultResult()`: the fixed fallback record. -/
def getDefaultResult : AnalysisResult :=
  { confidence := 85.0
    riskScore := 25
    result := .mildRisk
    explanation := "Unable to perform detailed color analysis. Please ensure good lighting and clear skin visibility for more accurate results."
    recommendations :=
      [ "Retake image with better lighting and clearer skin visibility"
      , "Consider professional medical evaluation if symptoms persist"
      , "Monitor for signs of fatigue, weakness, or pale appearance" ]
    colorAnalysis :=
      { redChannel := 0
        greenChannel := 0
        blueChannel := 0
        avgBrightness := 0
        pallorIndex := 0
        hemoglobinEstimate := 0 }
    detailedFindings := ["Color analysis unavailable due to image processing error"] }

/-- How the image hand-off to `analyzeAnemiaFromImage` can go: the 2D canvas
context may be unavailable, the image may fail to load (`img.onerror`), or a
decoded raster is delivered. -/
inductive LoadResult where
  | ctxUnavailable
  | loadError
  | ok (pixels : List Pixel)

/-- `analyzeAnemiaFromImage`.  Every branch resolves the promise with a value
(`resolve(...)`); nothing is thrown.  `rand` stands for the `Math.random()`
draw consumed by the executed classifier branch. -/
def analyzeAnemiaFromImage (load : LoadResult) (rand : ℚ) : AnalysisResult :=
  match load with
  | .ctxUnavailable => getDefaultResult
  | .loadError => getDefaultResult
  | .ok pixels =>
    let acc := runSampling pixels
    if acc.skinPixelCount = 0 then getDefaultResult
    else
      let avgR := acc.totalR / acc.skinPixelCount
      let avgG := acc.totalG / acc.skinPixelCount
      let avgB := acc.totalB / acc.skinPixelCount
      let avgBrightness := acc.totalBrightness / acc.skinPixelCount
      let pallorIndex := calculatePallorIndex avgR avgG avgB avgBrightness
      let hemoglobinEstimate := estimateHemoglobin avgR avgG avgB pallorIndex
      let riskAssessment := assessAnemiaRisk pallorIndex hemoglobinEstimate avgR avgG avgB rand
      { confidence := riskAssessment.confidence
        riskScore := riskAssessment.riskScore
        result := riskAssessment.result
        explanation := riskAssessment.explanation
        recommendations := riskAssessment.recommendations
        colorAnalysis :=
          { redChannel := jsRound avgR
            greenChannel := jsRound avgG
            blueChannel := jsRound avgB
            avgBrightness := jsRound avgBrightness
            pallorIndex := (jsRound (pallorIndex * 100) : ℚ) / 100
            hemoglobinEstimate := (jsRound (hemoglobinEstimate * 10) : ℚ) / 10 }
        detailedFindings := riskAssessment.detailedFindings }

/-! ## Spec-side restatement of the risk-tier table

These three definitions transcribe the §4.3 table of the specification (tier
condition, riskScore formula before rounding, focus-area count), to be
compared with `assessAnemiaRiskRaw`, which is translated from the source. -/

/-- The spec's cascading tier thresholds, first match wins. -/
def specTier (pallorIndex hemoglobinEstimate : ℚ) : RiskTier :=
  if pallorIndex < 0.2 ∧ hemoglobinEstimate ≥ 12.0 then .normal
  else if pallorIndex < 0.4 ∧ hemoglobinEstimate ≥ 10.0 then .mildRisk
  else if pallorIndex < 0.6 ∧ hemoglobinEstimate ≥ 8.0 then .highRisk
  else .severeRisk

/-- The spec's per-tier riskScore formula (before integer rounding). -/
def specRiskScore (pallorIndex hemoglobinEstimate : ℚ) : ℚ :=
  match specTier pallorIndex hemoglobinEstimate with
  | .normal => pallorIndex * 50
  | .mildRisk => 25 + pallorIndex * 40
  | .highRisk => 55 + pallorIndex * 30
  | .severeRisk => 75 + pallorIndex * 25

/-- The spec's per-tier focus-area list length. -/
def specFocusCount : RiskTier → ℕ
  | .normal => 0
  | .mildRisk => 4
  | .highRisk => 6
  | .severeRisk => 8

/-! ## Shared helper lemmas -/

/-- The classifier's tier agrees with the spec table's cascade. -/
lemma assessRaw_result_eq (p h r g b rand : ℚ) :
    (assessAnemiaRiskRaw p h r g b rand).result = specTier p h := by
  unfold assessAnemiaRiskRaw specTier
  split_ifs <;> rfl

/-- The classifier's unrounded riskScore agrees with the spec table's formula. -/
lemma assessRaw_riskScore_eq (p h r g b rand : ℚ) :
    (assessAnemiaRiskRaw p h r g b rand).riskScore = specRiskScore p h := by
  unfold assessAnemiaRiskRaw specRiskScore specTier
  split_ifs <;> rfl

/-- The classifier's focus-area list has the spec table's length. -/
lemma assessRaw_focus_len (p h r g b rand : ℚ) :
    (assessAnemiaRiskRaw p h r g b rand).focusAreas.length = specFocusCount (specTier p h) := by
  unfold assessAnemiaRiskRaw specFocusCount specTier
  split_ifs <;> rfl

/-! ## Claim theorems -/

/-- C1: for every pallorIndex and hemoglobinEstimate, the classifier selects
exactly one tier by the fixed first-match cascade (Normal if pallor < 0.2 and
hgb ≥ 12, else Mild if pallor < 0.4 and hgb ≥ 10, else High if pallor < 0.6
and hgb ≥ 8, else Severe); the selected tier's unrounded riskScore equals
pallor·50, 25+pallor·40, 55+pallor·30, 75+pallor·25 respectively, and the
focusAreas list has exactly 0, 4, 6, 8 items respectively. -/
theorem C1_risk_classifier_matches_spec_table (p h r g b rand : ℚ) :
    (assessAnemiaRiskRaw p h r g b rand).result = specTier p h ∧
    (assessAnemiaRiskRaw p h r g b rand).riskScore = specRiskScore p h ∧
    (assessAnemiaRiskRaw p h r g b rand).focusAreas.length =
      specFocusCount (specTier p h) :=
  ⟨assessRaw_result_eq p h r g b rand, assessRaw_riskScore_eq p h r g b rand,
    assessRaw_focus_len p h r g b rand⟩

/-- C3 counterexample: at avgR = 0 and pallorIndex = 1 the hemoglobin estimate
is 14.0 − 6.0 = 8.0, which is inside [4.0, 18.0]; it does not clamp to 4.0 as
the claim states. -/
theorem C3_floor_boundary_counterexample :
    estimateHemoglobin 0 0 0 1 = 8 ∧ estimateHemoglobin 0 0 0 1 ≠ 4 := by
  norm_num [estimateHemoglobin]

/-- C3 (amended): for every avgR and pallorIndex the hemoglobin estimate
clamp(14.0 + (avgR/255)·4.0 − pallorIndex·6.0, 4.0, 18.0) lies within
[4.0, 18.0]; at the probed points, avgR = 0 with pallorIndex = 1 gives 8.0
(inside the range, no clamping), and avgR = 255 with pallorIndex = 0 gives
14.0 + 4.0 = 18.0, clamping to 18.0 exactly at the ceiling. -/
theorem C3_hemoglobin_clamp_range :
    (∀ r g b p : ℚ,
      4 ≤ estimateHemoglobin r g b p ∧ estimateHemoglobin r g b p ≤ 18) ∧
    estimateHemoglobin 0 0 0 1 = 8 ∧ estimateHemoglobin 255 0 0 0 = 18 := by
  refine ⟨fun r g b p => ?_, by norm_num [estimateHemoglobin],
    by norm_num [estimateHemoglobin]⟩
  unfold estimateHemoglobin
  constructor
  · exact le_trans (by norm_num) (le_max_left (4.0 : ℚ) _)
  · exact le_trans (max_le (by norm_num) (min_le_left (18.0 : ℚ) _)) (by norm_num)

/-- C9: for channel averages and brightness in [0, 255] the pallor index lies
in [0, 1] (each weighted term is nonnegative and the weights 0.5 + 0.3 + 0.2
sum to 1), and for every pallor index in [0, 1] the unrounded riskScore of
every tier branch lies in [0, 100]. -/
theorem C9_pallor_and_riskScore_bounds (r g b br : ℚ)
    (hr0 : 0 ≤ r) (hr1 : r ≤ 255) (hg0 : 0 ≤ g) (hg1 : g ≤ 255)
    (hbr0 : 0 ≤ br) (hbr1 : br ≤ 255) :
    (0 ≤ calculatePallorIndex r g b br ∧ calculatePallorIndex r g b br ≤ 1) ∧
    ∀ p h rand : ℚ, 0 ≤ p → p ≤ 1 →
      0 ≤ (assessAnemiaRiskRaw p h r g b rand).riskScore ∧
      (assessAnemiaRiskRaw p h r g b rand).riskScore ≤ 100 := by
  constructor
  · unfold calculatePallorIndex
    have habs0 : 0 ≤ |r - g| := abs_nonneg _
    have habs1 : |r - g| ≤ 255 := abs_le.mpr ⟨by linarith, by linarith⟩
    have hm1l : (0 : ℚ) ≤ max 0 ((200 - r) / 200) := le_max_left _ _
    have hm1u : max 0 ((200 - r) / 200) ≤ 1 :=
      max_le (by norm_num) (by linarith)
    have hm2l : (0 : ℚ) ≤ max 0 ((220 - br) / 220) := le_max_left _ _
    have hm2u : max 0 ((220 - br) / 220) ≤ 1 :=
      max_le (by norm_num) (by linarith)
    constructor <;> simp only [] <;> nlinarith [habs0, habs1, hm1l, hm1u, hm2l, hm2u]
  · intro p h rand hp0 hp1
    unfold assessAnemiaRiskRaw
    split_ifs <;> simp only [] <;> constructor <;> linarith

/-- C4: the skin-likelihood score is exactly 0.9 when the HSV ranges (hue,
saturation and value) and the RGB heuristic both hold; 0.7 when the RGB
heuristic holds but not all three HSV ranges; 0.5 when the hue and saturation
ranges hold (value untested) but the RGB heuristic fails; and 0.0 otherwise.
Only scores strictly greater than 0.6 are accumulated, so a 0.5-scored pixel
never changes the accumulator. -/
theorem C4_skin_score_characterization :
    (∀ r g b : ℚ,
      (isSkinPixel r g b = 0.9 ↔
        (skinHueRange r g b ∧ skinSatRange r g b ∧ skinValRange r g b) ∧
          rgbSkinCheck r g b) ∧
      (isSkinPixel r g b = 0.7 ↔
        rgbSkinCheck r g b ∧
          ¬(skinHueRange r g b ∧ skinSatRange r g b ∧ skinValRange r g b)) ∧
      (isSkinPixel r g b = 0.5 ↔
        (skinHueRange r g b ∧ skinSatRange r g b) ∧ ¬rgbSkinCheck r g b) ∧
      (isSkinPixel r g b = 0.0 ↔
        ¬rgbSkinCheck r g b ∧ ¬(skinHueRange r g b ∧ skinSatRange r g b)) ∧
      (isSkinPixel r g b > 0.6 ↔ rgbSkinCheck r g b)) ∧
    ∀ (acc : SkinAcc) (p : Pixel),
      isSkinPixel p.r p.g p.b ≤ 0.6 → sampleStep acc p = acc := by
  constructor
  · intro r g b
    refine ⟨?_, ?_, ?_, ?_, ?_⟩ <;> unfold isSkinPixel <;> split_ifs <;>
      norm_num <;> tauto
  · intro acc p hle
    unfold sampleStep
    split_ifs with ha hs
    · rfl
    · exact absurd hs (not_lt.mpr hle)
    · rfl

/-- Increasing the pallor index (hemoglobin fixed) never makes the cascade
pick a less severe tier: each cascade condition is antitone in the pallor
index. -/
lemma specTier_severity_mono {p₁ p₂ h : ℚ} (hp : p₁ ≤ p₂) :
    severity (specTier p₁ h) ≤ severity (specTier p₂ h) := by
  unfold specTier
  by_cases a1 : p₂ < 0.2 ∧ h ≥ 12.0
  · have b1 : p₁ < 0.2 ∧ h ≥ 12.0 := ⟨lt_of_le_of_lt hp a1.1, a1.2⟩
    simp [a1, b1]
  · by_cases a2 : p₂ < 0.4 ∧ h ≥ 10.0
    · have b2 : p₁ < 0.4 ∧ h ≥ 10.0 := ⟨lt_of_le_of_lt hp a2.1, a2.2⟩
      by_cases b1 : p₁ < 0.2 ∧ h ≥ 12.0
      · simp [a1, a2, b1, severity]
      · simp [a1, a2, b1, b2]
    · by_cases a3 : p₂ < 0.6 ∧ h ≥ 8.0
      · have b3 : p₁ < 0.6 ∧ h ≥ 8.0 := ⟨lt_of_le_of_lt hp a3.1, a3.2⟩
        by_cases b1 : p₁ < 0.2 ∧ h ≥ 12.0
        · simp [a1, a2, a3, b1, severity]
        · by_cases b2 : p₁ < 0.4 ∧ h ≥ 10.0
          · have hn2 : ¬p₂ < 0.4 := fun hc => a2 ⟨hc, b2.2⟩
            simp [a1, a2, a3, b1, b2, hn2, severity]
          · simp [a1, a2, a3, b1, b2, b3]
      · simp [a1, a2, a3]
        split_ifs <;> norm_num [severity]

/-- In-tier bounds of the spec riskScore formulas, for a nonnegative pallor
index: Normal scores lie in [0, 10), Mild in [25, 41), High in [55, 73),
Severe in [75, ∞). -/
lemma specScore_bounds (p h : ℚ) (hp : 0 ≤ p) :
    (specTier p h = .normal → 0 ≤ specRiskScore p h ∧ specRiskScore p h < 10) ∧
    (specTier p h = .mildRisk → 25 ≤ specRiskScore p h ∧ specRiskScore p h < 41) ∧
    (specTier p h = .highRisk → 55 ≤ specRiskScore p h ∧ specRiskScore p h < 73) ∧
    (specTier p h = .severeRisk → 75 ≤ specRiskScore p h) := by
  unfold specRiskScore specTier
  split_ifs with a1 a2 a3
  · exact ⟨fun _ => ⟨show (0 : ℚ) ≤ p * 50 by linarith,
      show p * 50 < 10 by linarith [a1.1]⟩, by simp, by simp, by simp⟩
  · exact ⟨by simp, fun _ => ⟨show (25 : ℚ) ≤ 25 + p * 40 by linarith,
      show 25 + p * 40 < 41 by linarith [a2.1]⟩, by simp, by simp⟩
  · exact ⟨by simp, by simp, fun _ => ⟨show (55 : ℚ) ≤ 55 + p * 30 by linarith,
      show 55 + p * 30 < 73 by linarith [a3.1]⟩, by simp⟩
  · exact ⟨by simp, by simp, by simp,
      fun _ => show (75 : ℚ) ≤ 75 + p * 25 by linarith⟩

/-- C6: for every fixed hemoglobin estimate, a larger pallor index never
yields a strictly less severe tier (Normal < Mild < High < Severe). -/
theorem C6_tier_severity_monotone (h p₁ p₂ r g b rand₁ rand₂ : ℚ)
    (hp : p₁ ≤ p₂) :
    severity (assessAnemiaRiskRaw p₁ h r g b rand₁).result ≤
      severity (assessAnemiaRiskRaw p₂ h r g b rand₂).result := by
  rw [assessRaw_result_eq, assessRaw_result_eq]
  exact specTier_severity_mono hp

/-- C6 witness: at hemoglobin 13, pallor 0.1 versus 0.3. -/
theorem C6_tier_severity_monotone_witness :
    severity (assessAnemiaRiskRaw 0.1 13 0 0 0 0).result ≤
      severity (assessAnemiaRiskRaw 0.3 13 0 0 0 0).result :=
  C6_tier_severity_monotone 13 0.1 0.3 0 0 0 0 0 (by norm_num)

/-- C7: with nonnegative pallor indices, every unrounded riskScore reached in
a strictly more severe tier is at least as large as every unrounded riskScore
reached in a less severe tier. -/
theorem C7_riskScore_monotone_across_tiers
    (p₁ h₁ p₂ h₂ r₁ g₁ b₁ r₂ g₂ b₂ rand₁ rand₂ : ℚ)
    (hp₁ : 0 ≤ p₁) (hp₂ : 0 ≤ p₂)
    (hsev : severity (assessAnemiaRiskRaw p₁ h₁ r₁ g₁ b₁ rand₁).result <
      severity (assessAnemiaRiskRaw p₂ h₂ r₂ g₂ b₂ rand₂).result) :
    (assessAnemiaRiskRaw p₁ h₁ r₁ g₁ b₁ rand₁).riskScore ≤
      (assessAnemiaRiskRaw p₂ h₂ r₂ g₂ b₂ rand₂).riskScore := by
  rw [assessRaw_result_eq, assessRaw_result_eq] at hsev
  rw [assessRaw_riskScore_eq, assessRaw_riskScore_eq]
  have B1 := specScore_bounds p₁ h₁ hp₁
  have B2 := specScore_bounds p₂ h₂ hp₂
  rcases ht1 : specTier p₁ h₁ <;> rcases ht2 : specTier p₂ h₂ <;>
    rw [ht1, ht2] at hsev <;> simp only [severity] at hsev <;>
    first
      | omega
      | (first
          | linarith [(B1.1 ht1).2, (B2.2.1 ht2).1]
          | linarith [(B1.1 ht1).2, (B2.2.2.1 ht2).1]
          | linarith [(B1.1 ht1).2, B2.2.2.2 ht2]
          | linarith [(B1.2.1 ht1).2, (B2.2.2.1 ht2).1]
          | linarith [(B1.2.1 ht1).2, B2.2.2.2 ht2]
          | linarith [(B1.2.2.1 ht1).2, B2.2.2.2 ht2])

/-- C7 witness: Normal at (0.1, 13) scores 5; Mild at (0.2, 12) scores
25 + 0.2·40 = 33 (the claim's boundary example: strictly above the Normal
ceiling of 10). -/
theorem C7_riskScore_monotone_witness :
    (assessAnemiaRiskRaw 0.1 13 0 0 0 0).riskScore ≤
      (assessAnemiaRiskRaw 0.2 12 0 0 0 0).riskScore :=
  C7_riskScore_monotone_across_tiers 0.1 13 0.2 12 0 0 0 0 0 0 0 0
    (by norm_num) (by norm_num)
    (by rw [assessRaw_result_eq, assessRaw_result_eq]
        norm_num [specTier, severity])

/-- A fold of the sampling step over pixels that are all transparent
(`alpha < 128`) leaves the accumulator untouched. -/
lemma foldl_sampleStep_transparent :
    ∀ (l : List Pixel) (acc : SkinAcc), (∀ p ∈ l, p.a < 128) →
      l.foldl sampleStep acc = acc := by
  intro l
  induction l with
  | nil => intro acc _; rfl
  | cons p t ih =>
    intro acc hall
    have hp : p.a < 128 := hall p (List.mem_cons_self p t)
    have hstep : sampleStep acc p = acc := by unfold sampleStep; rw [if_pos hp]
    rw [List.foldl_cons, hstep]
    exact ih acc fun q hq => hall q (List.mem_cons_of_mem p hq)

/-- Every sampled pixel is a pixel of the raster. -/
lemma sampleEvery4_mem :
    ∀ (l : List Pixel) (p : Pixel), p ∈ sampleEvery4 l → p ∈ l := by
  intro l
  induction l using sampleEvery4.induct with
  | case1 p₀ q r s rest ih =>
    intro p hp
    rw [sampleEvery4] at hp
    rcases List.mem_cons.mp hp with h | h
    · simp [h]
    · have := ih p h
      simp [this]
  | case2 p₀ t h =>
    intro p hp
    rw [sampleEvery4] at hp
    · simp_all
    · exact h
  | case3 =>
    intro p hp
    simp [sampleEvery4] at hp

/-- The pure-blue pixel (0, 0, 255) scores 0.0: hue 240 is outside both skin
ranges and the RGB heuristic fails at its first conjunct (0 ≤ 95). -/
lemma isSkinPixel_blue : isSkinPixel 0 0 255 = 0.0 := by
  have hrgb : ¬rgbSkinCheck 0 0 255 := by norm_num [rgbSkinCheck]
  have hhue : ¬skinHueRange 0 0 255 := by
    norm_num [skinHueRange, hsvHue, chanMax, chanMin, jsRem, jsTrunc]
  unfold isSkinPixel
  rw [if_neg fun hh => hrgb hh.2.2.2, if_neg hrgb, if_neg fun hh => hhue hh.1]

/-- An opaque pure-blue raster classifies zero skin pixels. -/
lemma runSampling_blue_zero :
    (runSampling [⟨0, 0, 255, 255⟩]).skinPixelCount = 0 := by
  have hcast : isSkinPixel (((0 : ℕ) : ℚ)) (((0 : ℕ) : ℚ)) (((255 : ℕ) : ℚ)) = 0.0 := by
    push_cast
    exact isSkinPixel_blue
  have hstep : sampleStep ⟨0, 0, 0, 0, 0⟩ ⟨0, 0, 255, 255⟩ = ⟨0, 0, 0, 0, 0⟩ := by
    unfold sampleStep
    rw [if_neg (by decide), if_neg (by rw [hcast]; norm_num)]
  unfold runSampling
  rw [show sampleEvery4 [⟨0, 0, 255, 255⟩] = [⟨0, 0, 255, 255⟩] from rfl,
    List.foldl_cons, hstep, List.foldl_nil]

/-- C2: whenever the analysis cannot run — canvas context unavailable, image
load error, or a sampling pass that classifies zero skin pixels (for any
raster whatsoever) — the driver resolves with the fixed fallback record
`getDefaultResult` (Mild Risk, confidence 85.0, riskScore 25, zeroed color
metrics, three recommendations, one finding).  In particular a fully
transparent raster (alpha = 0 everywhere) has skinCount = 0 and falls back. -/
theorem C2_fallback_on_failure_paths (rand : ℚ) :
    analyzeAnemiaFromImage .ctxUnavailable rand = getDefaultResult ∧
    analyzeAnemiaFromImage .loadError rand = getDefaultResult ∧
    (∀ pixels : List Pixel, (runSampling pixels).skinPixelCount = 0 →
      analyzeAnemiaFromImage (.ok pixels) rand = getDefaultResult) ∧
    ∀ pixels : List Pixel, (∀ p ∈ pixels, p.a = 0) →
      (runSampling pixels).skinPixelCount = 0 ∧
      analyzeAnemiaFromImage (.ok pixels) rand = getDefaultResult := by
  refine ⟨rfl, rfl, ?_, ?_⟩
  · intro pixels hzero
    simp only [analyzeAnemiaFromImage]
    rw [if_pos hzero]
  · intro pixels hall
    have h4 : ∀ p ∈ sampleEvery4 pixels, p.a < 128 := by
      intro p hp
      have h0 := hall p (sampleEvery4_mem pixels p hp)
      omega
    have hacc : runSampling pixels = ⟨0, 0, 0, 0, 0⟩ :=
      foldl_sampleStep_transparent _ _ h4
    exact ⟨by rw [hacc], by simp [analyzeAnemiaFromImage, hacc]⟩

/-- C2 witness: an opaque pure-blue raster (zero skin pixels without
transparency) and a one-pixel fully transparent raster. -/
theorem C2_fallback_witness :
    analyzeAnemiaFromImage (.ok [⟨0, 0, 255, 255⟩]) 0 = getDefaultResult ∧
    (runSampling [⟨0, 0, 0, 0⟩]).skinPixelCount = 0 ∧
    analyzeAnemiaFromImage (.ok [⟨0, 0, 0, 0⟩]) 0 = getDefaultResult :=
  ⟨(C2_fallback_on_failure_paths 0).2.2.1 [⟨0, 0, 255, 255⟩] runSampling_blue_zero,
    (C2_fallback_on_failure_paths 0).2.2.2 [⟨0, 0, 0, 0⟩]
      (by intro p hp; rw [List.mem_singleton] at hp; rw [hp])⟩

/-- Every field of the pre-return classifier state other than `confidence` is
independent of the `Math.random()` draw. -/
lemma assessRaw_rand_indep (p h r g b g₁ g₂ : ℚ) :
    (assessAnemiaRiskRaw p h r g b g₁).result =
      (assessAnemiaRiskRaw p h r g b g₂).result ∧
    (assessAnemiaRiskRaw p h r g b g₁).riskScore =
      (assessAnemiaRiskRaw p h r g b g₂).riskScore ∧
    (assessAnemiaRiskRaw p h r g b g₁).explanation =
      (assessAnemiaRiskRaw p h r g b g₂).explanation ∧
    (assessAnemiaRiskRaw p h r g b g₁).recommendations =
      (assessAnemiaRiskRaw p h r g b g₂).recommendations ∧
    (assessAnemiaRiskRaw p h r g b g₁).detailedFindings =
      (assessAnemiaRiskRaw p h r g b g₂).detailedFindings ∧
    (assessAnemiaRiskRaw p h r g b g₁).focusAreas =
      (assessAnemiaRiskRaw p h r g b g₂).focusAreas := by
  unfold assessAnemiaRiskRaw
  split_ifs <;> exact ⟨rfl, rfl, rfl, rfl, rfl, rfl⟩

/-- C8: two runs of the analysis on the identical raster agree on tier,
riskScore, color metrics, and all prose fields; the randomized confidence
jitter is the only random-dependent field of the result. -/
theorem C8_rand_only_affects_confidence (load : LoadResult) (g₁ g₂ : ℚ) :
    (analyzeAnemiaFromImage load g₁).result = (analyzeAnemiaFromImage load g₂).result ∧
    (analyzeAnemiaFromImage load g₁).riskScore =
      (analyzeAnemiaFromImage load g₂).riskScore ∧
    (analyzeAnemiaFromImage load g₁).colorAnalysis =
      (analyzeAnemiaFromImage load g₂).colorAnalysis ∧
    (analyzeAnemiaFromImage load g₁).explanation =
      (analyzeAnemiaFromImage load g₂).explanation ∧
    (analyzeAnemiaFromImage load g₁).recommendations =
      (analyzeAnemiaFromImage load g₂).recommendations ∧
    (analyzeAnemiaFromImage load g₁).detailedFindings =
      (analyzeAnemiaFromImage load g₂).detailedFindings := by
  cases load with
  | ctxUnavailable => exact ⟨rfl, rfl, rfl, rfl, rfl, rfl⟩
  | loadError => exact ⟨rfl, rfl, rfl, rfl, rfl, rfl⟩
  | ok pixels =>
    by_cases hc : (runSampling pixels).skinPixelCount = 0
    · simp [analyzeAnemiaFromImage, hc]
    · obtain ⟨e₁, e₂, e₃, e₄, e₅, _⟩ := assessRaw_rand_indep
        (calculatePallorIndex
          ((runSampling pixels).totalR / (runSampling pixels).skinPixelCount)
          ((runSampling pixels).totalG / (runSampling pixels).skinPixelCount)
          ((runSampling pixels).totalB / (runSampling pixels).skinPixelCount)
          ((runSampling pixels).totalBrightness / (runSampling pixels).skinPixelCount))
        (estimateHemoglobin
          ((runSampling pixels).totalR / (runSampling pixels).skinPixelCount)
          ((runSampling pixels).totalG / (runSampling pixels).skinPixelCount)
          ((runSampling pixels).totalB / (runSampling pixels).skinPixelCount)
          (calculatePallorIndex
            ((runSampling pixels).totalR / (runSampling pixels).skinPixelCount)
            ((runSampling pixels).totalG / (runSampling pixels).skinPixelCount)
            ((runSampling pixels).totalB / (runSampling pixels).skinPixelCount)
            ((runSampling pixels).totalBrightness / (runSampling pixels).skinPixelCount)))
        ((runSampling pixels).totalR / (runSampling pixels).skinPixelCount)
        ((runSampling pixels).totalG / (runSampling pixels).skinPixelCount)
        ((runSampling pixels).totalB / (runSampling pixels).skinPixelCount)
        g₁ g₂
      simp only [analyzeAnemiaFromImage, assessAnemiaRisk, if_neg hc]
      exact ⟨e₁, by rw [e₂], trivial, e₃, e₄, e₅⟩

/-- The pixel (80, 60, 50) scores 0.5: hue 20 and saturation 0.375 are in
range, the value 80/255 is below 0.35 (but the 0.5 tier does not test it),
and the RGB heuristic fails (80 ≤ 95). -/
lemma isSkinPixel_low_conf : isSkinPixel 80 60 50 = 0.5 := by
  have hrgb : ¬rgbSkinCheck 80 60 50 := by norm_num [rgbSkinCheck]
  have hhue : skinHueRange 80 60 50 := by
    unfold skinHueRange
    left
    constructor <;> norm_num [hsvHue, chanMax, chanMin, jsRem, jsTrunc]
  have hsat : skinSatRange 80 60 50 := by
    constructor <;> norm_num [hsvSat, chanMax, chanMin]
  unfold isSkinPixel
  rw [if_neg fun hh => hrgb hh.2.2.2, if_neg hrgb, if_pos ⟨hhue, hsat⟩]

/-- C4 witness: the 0.5-scored pixel (80, 60, 50) is never accumulated. -/
theorem C4_skin_score_witness :
    sampleStep ⟨0, 0, 0, 0, 0⟩ ⟨80, 60, 50, 255⟩ = ⟨0, 0, 0, 0, 0⟩ :=
  C4_skin_score_characterization.2 ⟨0, 0, 0, 0, 0⟩ ⟨80, 60, 50, 255⟩
    (by show isSkinPixel ((80 : ℕ) : ℚ) ((60 : ℕ) : ℚ) ((50 : ℕ) : ℚ) ≤ 0.6
        push_cast
        rw [isSkinPixel_low_conf]
        norm_num)

/-- C9 witness: channel averages 100 and, in the high-risk branch, pallor 0.5
with hemoglobin 9. -/
theorem C9_pallor_riskScore_witness :
    (0 ≤ calculatePallorIndex 100 100 100 100 ∧
      calculatePallorIndex 100 100 100 100 ≤ 1) ∧
    0 ≤ (assessAnemiaRiskRaw 0.5 9 100 100 100 0).riskScore ∧
    (assessAnemiaRiskRaw 0.5 9 100 100 100 0).riskScore ≤ 100 :=
  ⟨(C9_pallor_and_riskScore_bounds 100 100 100 100 (by norm_num) (by norm_num)
      (by norm_num) (by norm_num) (by norm_num) (by norm_num)).1,
    (C9_pallor_and_riskScore_bounds 100 100 100 100 (by norm_num) (by norm_num)
      (by norm_num) (by norm_num) (by norm_num) (by norm_num)).2
      0.5 9 0 (by norm_num) (by norm_num)⟩

/-- The mid-tone skin pixel (220, 170, 140) scores 0.9: hue 22.5, saturation
4/11 ≈ 0.36, value 44/51 ≈ 0.86, and the RGB heuristic holds. -/
lemma isSkinPixel_midtone : isSkinPixel 220 170 140 = 0.9 := by
  rw [isSkinPixel, if_pos]
  refine ⟨?_, ?_, ?_, ?_⟩
  · left
    constructor <;> norm_num [hsvHue, chanMax, chanMin, jsRem, jsTrunc]
  · constructor <;> norm_num [hsvSat, chanMax, chanMin]
  · constructor <;> norm_num [hsvVal, chanMax]
  · refine ⟨by norm_num, by norm_num, by norm_num, ?_, by norm_num, by norm_num, by norm_num⟩
    norm_num [chanMax, chanMin]

/-- Folding the sampling step over pixels whose opaque members are all the
mid-tone (220, 170, 140) accumulates exactly the opaque ones. -/
lemma foldl_midtone :
    ∀ l : List Pixel,
      (∀ p ∈ l, 128 ≤ p.a → p.r = 220 ∧ p.g = 170 ∧ p.b = 140) →
      ∀ k : ℕ, l.foldl sampleStep (midAcc k) =
        midAcc (k + l.countP fun p => decide (128 ≤ p.a)) := by
  intro l
  induction l with
  | nil => intro _ k; simp [midAcc]
  | cons p t ih =>
    intro hall k
    rw [List.foldl_cons]
    by_cases hpa : 128 ≤ p.a
    · obtain ⟨hr, hg, hb⟩ := hall p (List.mem_cons_self p t) hpa
      have hskin : isSkinPixel p.r p.g p.b = 0.9 := by
        rw [hr, hg, hb]; push_cast; exact isSkinPixel_midtone
      have hstep : sampleStep (midAcc k) p = midAcc (k + 1) := by
        unfold sampleStep midAcc
        rw [if_neg (by omega), if_pos (by rw [hskin]; norm_num)]
        simp only [SkinAcc.mk.injEq]
        rw [hr, hg, hb]
        refine ⟨?_, ?_, ?_, ?_, trivial⟩ <;> push_cast <;> ring
      rw [hstep, ih (fun q hq => hall q (List.mem_cons_of_mem p hq)) (k + 1)]
      have hcnt : (p :: t).countP (fun q => decide (128 ≤ q.a)) =
          t.countP (fun q => decide (128 ≤ q.a)) + 1 := by
        simp [List.countP_cons, hpa]
      rw [hcnt]
      exact congrArg midAcc (by omega)
    · have hstep : sampleStep (midAcc k) p = midAcc k := by
        unfold sampleStep; rw [if_pos (by omega)]
      rw [hstep, ih (fun q hq => hall q (List.mem_cons_of_mem p hq)) k]
      have hcnt : (p :: t).countP (fun q => decide (128 ≤ q.a)) =
          t.countP (fun q => decide (128 ≤ q.a)) := by
        simp [List.countP_cons, hpa]
      rw [hcnt]

/-- The sampling pass over an all-mid-tone raster. -/
lemma runSampling_midtone (pixels : List Pixel)
    (hall : ∀ p ∈ sampleEvery4 pixels, 128 ≤ p.a → p.r = 220 ∧ p.g = 170 ∧ p.b = 140) :
    runSampling pixels =
      midAcc ((sampleEvery4 pixels).countP fun p => decide (128 ≤ p.a)) := by
  have h := foldl_midtone (sampleEvery4 pixels) hall 0
  have h0 : midAcc 0 = ⟨0, 0, 0, 0, 0⟩ := by unfold midAcc; norm_num
  unfold runSampling
  rw [← h0, h, Nat.zero_add]

/-- Full evaluation of the analysis on a raster whose sampled opaque pixels
are all the mid-tone (220, 170, 140): the averages are (220, 170, 140) with
brightness 530/3, the pallor index is 2467/11220 ≈ 0.2199 (not < 0.2), the
hemoglobin estimate is 90499/5610 ≈ 16.13, and the cascade therefore selects
Mild Risk. -/
lemma midtone_analysis (pixels : List Pixel) (rand : ℚ)
    (hne : ∃ p ∈ sampleEvery4 pixels, 128 ≤ p.a)
    (hall : ∀ p ∈ sampleEvery4 pixels, 128 ≤ p.a → p.r = 220 ∧ p.g = 170 ∧ p.b = 140) :
    0 < (runSampling pixels).skinPixelCount ∧
    (analyzeAnemiaFromImage (.ok pixels) rand).result = .mildRisk := by
  obtain ⟨q, hq, hqa⟩ := hne
  have hrun := runSampling_midtone pixels hall
  set c := (sampleEvery4 pixels).countP (fun p => decide (128 ≤ p.a)) with hcdef
  have hcpos : 0 < c := List.countP_pos_iff.mpr ⟨q, hq, by simpa using hqa⟩
  have hcount : (runSampling pixels).skinPixelCount = c := by rw [hrun]; rfl
  refine ⟨by rw [hcount]; exact hcpos, ?_⟩
  have hcq : ((c : ℕ) : ℚ) ≠ 0 := Nat.cast_ne_zero.mpr hcpos.ne'
  have e1 : 220 * (c : ℚ) / (c : ℚ) = 220 := by field_simp
  have e2 : 170 * (c : ℚ) / (c : ℚ) = 170 := by field_simp
  have e3 : 140 * (c : ℚ) / (c : ℚ) = 140 := by field_simp
  have e4 : 530 / 3 * (c : ℚ) / (c : ℚ) = 530 / 3 := by field_simp; ring
  simp only [analyzeAnemiaFromImage]
  rw [hrun]
  rw [if_neg (show ¬(midAcc c).skinPixelCount = 0 by simp only [midAcc]; omega)]
  simp only [midAcc, e1, e2, e3, e4]
  rw [show calculatePallorIndex 220 170 140 (530 / 3) = 2467 / 11220 from by
        norm_num [calculatePallorIndex],
      show estimateHemoglobin 220 170 140 (2467 / 11220) = 90499 / 5610 from by
        norm_num [estimateHemoglobin]]
  show (assessAnemiaRisk (2467 / 11220) (90499 / 5610) 220 170 140 rand).result = .mildRisk
  unfold assessAnemiaRisk
  simp only []
  rw [assessRaw_result_eq]
  norm_num [specTier]

/-- C5 counterexample: the one-pixel opaque mid-tone raster (every sampled
opaque pixel is (220, 170, 140)) has skinCount > 0, yet its tier is not
Normal: the pallor index evaluates to 2467/11220 ≈ 0.2199 ≥ 0.2, so the
cascade selects Mild Risk. -/
theorem C5_midtone_counterexample :
    0 < (runSampling [⟨220, 170, 140, 255⟩]).skinPixelCount ∧
    (analyzeAnemiaFromImage (.ok [⟨220, 170, 140, 255⟩]) 0).result ≠
      RiskTier.normal := by
  have h := midtone_analysis [⟨220, 170, 140, 255⟩] 0 (by decide) (by decide)
  exact ⟨h.1, by rw [h.2]; decide⟩

/-- C5 (amended): for every raster with at least one sampled opaque pixel in
which every sampled opaque pixel is the mid-tone value R=220, G=170, B=140,
the sampling pass yields skinCount > 0 and the resulting tier is Mild Risk
(the computed pallorIndex is 2467/11220 ≈ 0.2199, which is in [0.2, 0.4), and
the hemoglobin estimate 90499/5610 ≈ 16.13 is ≥ 10.0). -/
theorem C5_midtone_raster_mild_risk (pixels : List Pixel) (rand : ℚ)
    (hne : ∃ p ∈ sampleEvery4 pixels, 128 ≤ p.a)
    (hall : ∀ p ∈ sampleEvery4 pixels,
      128 ≤ p.a → p.r = 220 ∧ p.g = 170 ∧ p.b = 140) :
    0 < (runSampling pixels).skinPixelCount ∧
    (analyzeAnemiaFromImage (.ok pixels) rand).result = .mildRisk :=
  midtone_analysis pixels rand hne hall

/-- C5 witness: the two-pixel raster [(220,170,140,255), (0,0,0,0)]. -/
theorem C5_midtone_witness :
    0 < (runSampling [⟨220, 170, 140, 255⟩, ⟨0, 0, 0, 0⟩]).skinPixelCount ∧
    (analyzeAnemiaFromImage (.ok [⟨220, 170, 140, 255⟩, ⟨0, 0, 0, 0⟩]) 0).result =
      .mildRisk :=
  C5_midtone_raster_mild_risk [⟨220, 170, 140, 255⟩, ⟨0, 0, 0, 0⟩] 0
    (by decide) (by decide)

/-- C10: for every input canvas and non-empty focusAreas list, a rendered
heatmap overlay has exactly the input's width and height. -/
theorem C10_heatmap_preserves_dimensions (canvas : Canvas) (focusAreas : List ℚ)
    (hne : focusAreas ≠ []) (out : GradCamCanvas)
    (hout : generateGradCAM true canvas focusAreas = some out) :
    out.width = canvas.width ∧ out.height = canvas.height := by
  unfold generateGradCAM at hout
  rw [if_neg (by simp)] at hout
  obtain rfl := Option.some.inj hout
  exact ⟨rfl, rfl⟩

/-- C10 witness: a 10×20 canvas with one focus area of intensity 30. -/
theorem C10_heatmap_dimensions_witness :
    (GradCamCanvas.mk 10 20 0.6 0.4 [⟨0, 0, 10 / 3, 20 / 3, 30 / 100⟩]).width = 10 ∧
    (GradCamCanvas.mk 10 20 0.6 0.4 [⟨0, 0, 10 / 3, 20 / 3, 30 / 100⟩]).height = 20 :=
  C10_heatmap_preserves_dimensions ⟨10, 20⟩ [30] (by simp)
    (GradCamCanvas.mk 10 20 0.6 0.4 [⟨0, 0, 10 / 3, 20 / 3, 30 / 100⟩])
    (by unfold generateGradCAM
        rw [if_neg (by simp)]
        norm_num [List.enum])

end Anemia
